import Mathlib

/-!
Verification of the pipe-network head-loss and pump-sizing calculator in
`src/pump_hp.py`.  Python floats are modelled as real numbers; the explicit
`raise ValueError` statements and the division by a zero pipe area (Python's
`ZeroDivisionError`) are modelled by an `Except` result.  Error message
strings are elided: only the kind of error is kept.
-/

set_option maxHeartbeats 1000000

noncomputable section

/-- Errors raised by the calculator: `valueError` models Python's
`ValueError` (raised explicitly by the source) and `zeroDivisionError`
models Python's `ZeroDivisionError` (division by a zero pipe area). -/
inductive PErr where
  | valueError : PErr
  | zeroDivisionError : PErr

/-- `FT_TO_M = 0.3048` from the source. -/
def FT_TO_M : ℝ := 0.3048

/-- `IN_TO_M = 0.0254` from the source. -/
def IN_TO_M : ℝ := 0.0254

/-- `HP_PER_WATT = 1.0 / 745.699872` from the source. -/
def HP_PER_WATT : ℝ := 1.0 / 745.699872

/-- `inch_diameter_to_m(d_in) = d_in * IN_TO_M`. -/
def inch_diameter_to_m (d_in : ℝ) : ℝ := d_in * IN_TO_M

/-- `friction_factor_haaland(Re, rel_roughness)`: raises for `Re <= 0`,
returns `64/Re` for `Re < 2300`, else the Haaland value.  `**` is real
exponentiation and `math.log10` is `Real.logb 10`. -/
def friction_factor_haaland (Re rel_roughness : ℝ) : Except PErr ℝ :=
  if Re ≤ 0 then .error .valueError
  else if Re < 2300 then .ok (64.0 / Re)
  else .ok (1.0 / ((-1.8 * Real.logb 10 ((rel_roughness / 3.7) ^ (1.11 : ℝ) + 6.9 / Re)) ^ 2))

/-- The `MinorLoss` dataclass: a name, a loss coefficient `K`, and an
optional diameter override (`None` means: use the system main diameter). -/
structure MinorLoss where
  name : String
  K : ℝ
  diameter_m : Option ℝ := none

/-- The `SystemParams` dataclass with the source's default field values. -/
structure SystemParams where
  Q_m3_s : ℝ := 0.006
  z1_m : ℝ := 0.0
  z2_m : ℝ := 3.0 * FT_TO_M
  D_main_m : ℝ := inch_diameter_to_m 2.0
  L_main_m : ℝ := 15.0 * FT_TO_M
  rho_kg_m3 : ℝ := 998.0
  mu_Pa_s : ℝ := 1.002e-3
  g_m_s2 : ℝ := 9.80665
  eps_m : ℝ := 1.5e-6
  pump_efficiency : ℝ := 0.65
  point2_is_reservoir_free_surface : Bool := false
  minor_losses : List MinorLoss := []

/-- `compute_velocity(Q, D) = Q / A` with `A = pi*D**2/4`.  Python raises
`ZeroDivisionError` exactly when the float `A` is zero, i.e. when `D = 0`. -/
def compute_velocity (Q D : ℝ) : Except PErr ℝ :=
  let A := Real.pi * D ^ 2 / 4.0
  if A = 0 then .error .zeroDivisionError else .ok (Q / A)

/-- `compute_reynolds(rho, V, D, mu) = rho*V*D/mu`. -/
def compute_reynolds (rho V D mu : ℝ) : ℝ := rho * V * D / mu

/-- The accumulation loop of `head_from_minor_losses`: for each element,
`D_use` is the override diameter if present else the main diameter, the
effective velocity is recomputed from `Q`, and `K*V**2/(2*g)` is added. -/
def minor_loop (Q Dmain g : ℝ) : List MinorLoss → ℝ → Except PErr ℝ
  | [], acc => .ok acc
  | ml :: rest, acc =>
    match compute_velocity Q (ml.diameter_m.getD Dmain) with
    | .error e => .error e
    | .ok V_use => minor_loop Q Dmain g rest (acc + ml.K * V_use ^ 2 / (2.0 * g))

/-- `head_from_minor_losses(params, V_main)`: the loop starting from
`h_minor = 0.0`.  The `V_main` argument is not used by the source body. -/
def head_from_minor_losses (params : SystemParams) (V_main : ℝ) : Except PErr ℝ :=
  minor_loop params.Q_m3_s params.D_main_m params.g_m_s2 params.minor_losses 0.0

/-- `head_from_major_losses(params, V_main)`: Reynolds number, relative
roughness, friction factor, then the Darcy-Weisbach head. -/
def head_from_major_losses (params : SystemParams) (V_main : ℝ) : Except PErr ℝ :=
  match friction_factor_haaland
      (compute_reynolds params.rho_kg_m3 V_main params.D_main_m params.mu_Pa_s)
      (params.eps_m / params.D_main_m) with
  | .error e => .error e
  | .ok f =>
      .ok (f * (params.L_main_m / params.D_main_m) * V_main ^ 2 / (2.0 * params.g_m_s2))

/-- The implicit exit-loss element built in the free-surface branch:
`MinorLoss(name="Exit to reservoir", K=1.0, diameter_m=params.D_main_m)`. -/
def exit_loss (params : SystemParams) : MinorLoss :=
  { name := "Exit to reservoir", K := 1.0, diameter_m := some params.D_main_m }

/-- The fresh `temp_params` built in the free-surface branch: all fields of
`params` with `minor_losses` replaced by `params.minor_losses + [exit_loss]`. -/
def temp_params (params : SystemParams) : SystemParams :=
  { params with minor_losses := params.minor_losses ++ [exit_loss params] }

/-- The result dict of `compute_pump_head_and_hp`, as a record. -/
structure PumpResult where
  V_main_m_s : ℝ
  delta_z_m : ℝ
  h_major_m : ℝ
  h_minor_m : ℝ
  h_total_losses_m : ℝ
  pump_head_m : ℝ
  hydraulic_power_W : ℝ
  shaft_power_W : ℝ
  shaft_power_hp : ℝ

/-- `compute_pump_head_and_hp(params)`: main velocity, elevation head, the
modelling branch on `point2_is_reservoir_free_surface` (kinetic term and
minor-loss inventory), major losses, pump head, and the three powers.  The
efficiency check `if not (0 < pump_efficiency <= 1.0): raise ValueError`
is reached only after the head computations, as in the source. -/
def compute_pump_head_and_hp (params : SystemParams) : Except PErr PumpResult :=
  match compute_velocity params.Q_m3_s params.D_main_m with
  | .error e => .error e
  | .ok V_main =>
    let delta_z := params.z2_m - params.z1_m
    let V2_term : ℝ :=
      if params.point2_is_reservoir_free_surface then 0.0
      else V_main ^ 2 / (2.0 * params.g_m_s2)
    match (if params.point2_is_reservoir_free_surface then
             head_from_minor_losses (temp_params params) V_main
           else head_from_minor_losses params V_main) with
    | .error e => .error e
    | .ok h_minor =>
      match head_from_major_losses params V_main with
      | .error e => .error e
      | .ok h_major =>
        let h_L := h_minor + h_major
        let H_pump := delta_z + V2_term + h_L
        let P_hyd_W := params.rho_kg_m3 * params.g_m_s2 * params.Q_m3_s * H_pump
        if 0 < params.pump_efficiency ∧ params.pump_efficiency ≤ 1.0 then
          let P_shaft_W := P_hyd_W / params.pump_efficiency
          .ok { V_main_m_s := V_main, delta_z_m := delta_z, h_major_m := h_major,
                h_minor_m := h_minor, h_total_losses_m := h_L, pump_head_m := H_pump,
                hydraulic_power_W := P_hyd_W, shaft_power_W := P_shaft_W,
                shaft_power_hp := P_shaft_W * HP_PER_WATT }
        else .error .valueError

/-! ### Closed-form characterizations of the successful computation -/

/-- Main-line velocity `Q / (pi*D^2/4)` as a total function. -/
def V_of (Q D : ℝ) : ℝ := Q / (Real.pi * D ^ 2 / 4.0)

/-- The value returned by the friction factor when `Re > 0`. -/
def friction_value (Re rr : ℝ) : ℝ :=
  if Re < 2300 then 64.0 / Re
  else 1.0 / ((-1.8 * Real.logb 10 ((rr / 3.7) ^ (1.11 : ℝ) + 6.9 / Re)) ^ 2)

/-- The minor-loss sum described by the spec: each element contributes
`K * V_eff^2 / (2*g)` where `V_eff` is recomputed from `Q` and the
element's diameter override (falling back to the main diameter). -/
def minor_sum (Q g Dmain : ℝ) (els : List MinorLoss) : ℝ :=
  (els.map fun ml => ml.K * (V_of Q (ml.diameter_m.getD Dmain)) ^ 2 / (2.0 * g)).sum

/-- The effective minor-loss inventory: the caller's inventory, with the
single implicit exit element appended exactly when the free-surface flag
is set. -/
def eff_losses (params : SystemParams) : List MinorLoss :=
  if params.point2_is_reservoir_free_surface then params.minor_losses ++ [exit_loss params]
  else params.minor_losses

/-- The Reynolds number of the main line. -/
def Re_of (p : SystemParams) : ℝ :=
  p.rho_kg_m3 * V_of p.Q_m3_s p.D_main_m * p.D_main_m / p.mu_Pa_s

/-- Kinetic-energy term at point 2: zero for a free surface, else `V^2/(2g)`. -/
def kinetic_term (p : SystemParams) : ℝ :=
  if p.point2_is_reservoir_free_surface then 0.0
  else (V_of p.Q_m3_s p.D_main_m) ^ 2 / (2.0 * p.g_m_s2)

/-- Major-loss head on a successful run. -/
def h_major_val (p : SystemParams) : ℝ :=
  friction_value (Re_of p) (p.eps_m / p.D_main_m) * (p.L_main_m / p.D_main_m) *
    (V_of p.Q_m3_s p.D_main_m) ^ 2 / (2.0 * p.g_m_s2)

/-- Minor-loss head on a successful run. -/
def h_minor_val (p : SystemParams) : ℝ :=
  minor_sum p.Q_m3_s p.g_m_s2 p.D_main_m (eff_losses p)

/-- Required pump head on a successful run. -/
def pump_head_val (p : SystemParams) : ℝ :=
  (p.z2_m - p.z1_m) + kinetic_term p + (h_minor_val p + h_major_val p)

/-- Hydraulic power on a successful run. -/
def hyd_power_val (p : SystemParams) : ℝ :=
  p.rho_kg_m3 * p.g_m_s2 * p.Q_m3_s * pump_head_val p

/-- The full record produced by a successful run. -/
def math_result (p : SystemParams) : PumpResult :=
  { V_main_m_s := V_of p.Q_m3_s p.D_main_m
    delta_z_m := p.z2_m - p.z1_m
    h_major_m := h_major_val p
    h_minor_m := h_minor_val p
    h_total_losses_m := h_minor_val p + h_major_val p
    pump_head_m := pump_head_val p
    hydraulic_power_W := hyd_power_val p
    shaft_power_W := hyd_power_val p / p.pump_efficiency
    shaft_power_hp := hyd_power_val p / p.pump_efficiency * HP_PER_WATT }

/-- All effective diameters in an inventory are nonzero (so that no
element raises a `ZeroDivisionError`). -/
def ml_ok (Dmain : ℝ) (els : List MinorLoss) : Prop :=
  ∀ ml ∈ els, ml.diameter_m.getD Dmain ≠ 0

/-! ### Concrete configurations used by witnesses and counterexamples -/

/-- The source's default configuration (all dataclass defaults). -/
def defaultParams : SystemParams := {}

/-- Default configuration except for a negative density. -/
def negRhoParams : SystemParams := { rho_kg_m3 := -998.0 }

/-- Default configuration except for density `-1`. -/
def negRhoParams1 : SystemParams := { rho_kg_m3 := -1.0 }

/-- Default configuration except for an out-of-range pump efficiency. -/
def badEtaParams : SystemParams := { pump_efficiency := 1.5 }

/-- Default configuration except for a pump efficiency of exactly 1. -/
def unitEtaParams : SystemParams := { pump_efficiency := 1.0 }

/-- Default configuration except for a negative gravity field. -/
def negGParams : SystemParams := { g_m_s2 := -9.80665 }

/-- A free-surface configuration with one ordinary minor-loss element. -/
def teeParams : SystemParams :=
  { point2_is_reservoir_free_surface := true,
    minor_losses := [{ name := "Tee branch", K := 1.0, diameter_m := none }] }

/-- A sample minor-loss element with no diameter override. -/
def mlA : MinorLoss := { name := "A", K := 2.0, diameter_m := none }

/-- A sample minor-loss element with a diameter override. -/
def mlB : MinorLoss := { name := "B", K := 3.0, diameter_m := some 0.01 }

/-- A configuration holding the two sample elements in order `[A, B]`. -/
def permParams : SystemParams := { minor_losses := [mlA, mlB] }

end

/-! ### Basic lemmas about the fallible primitives -/

theorem pipe_area_ne_zero {D : ℝ} (h : D ≠ 0) : Real.pi * D ^ 2 / 4.0 ≠ 0 := by
  have hp : (0 : ℝ) < Real.pi * D ^ 2 / 4.0 := by
    have := Real.pi_pos
    have h2 : (0 : ℝ) < D ^ 2 := by positivity
    positivity
  exact ne_of_gt hp

theorem compute_velocity_eq (Q D : ℝ) (h : D ≠ 0) :
    compute_velocity Q D = .ok (V_of Q D) := by
  simp only [compute_velocity, V_of, if_neg (pipe_area_ne_zero h)]

theorem compute_velocity_zero_diam (Q : ℝ) :
    compute_velocity Q 0 = .error .zeroDivisionError := by
  simp [compute_velocity]

theorem V_of_pos {Q D : ℝ} (hQ : 0 < Q) (hD : 0 < D) : 0 < V_of Q D := by
  have hA : (0 : ℝ) < Real.pi * D ^ 2 / 4.0 := by
    have := Real.pi_pos
    positivity
  exact div_pos hQ hA

theorem friction_factor_haaland_err {Re : ℝ} (rr : ℝ) (h : Re ≤ 0) :
    friction_factor_haaland Re rr = .error .valueError := by
  simp [friction_factor_haaland, h]

theorem friction_factor_haaland_ok {Re : ℝ} (rr : ℝ) (h : 0 < Re) :
    friction_factor_haaland Re rr = .ok (friction_value Re rr) := by
  rw [friction_factor_haaland, if_neg (not_le.mpr h), friction_value]
  split <;> rfl

theorem Re_of_pos {p : SystemParams} (hQ : 0 < p.Q_m3_s) (hD : 0 < p.D_main_m)
    (hmu : 0 < p.mu_Pa_s) (hrho : 0 < p.rho_kg_m3) : 0 < Re_of p :=
  div_pos (mul_pos (mul_pos hrho (V_of_pos hQ hD)) hD) hmu

theorem Re_of_neg {p : SystemParams} (hQ : 0 < p.Q_m3_s) (hD : 0 < p.D_main_m)
    (hmu : 0 < p.mu_Pa_s) (hrho : p.rho_kg_m3 < 0) : Re_of p < 0 :=
  div_neg_of_neg_of_pos
    (mul_neg_of_neg_of_pos (mul_neg_of_neg_of_pos hrho (V_of_pos hQ hD)) hD) hmu

/-! ### The minor-loss loop -/

theorem minor_sum_nil (Q g Dmain : ℝ) : minor_sum Q g Dmain [] = 0 := by
  simp [minor_sum]

theorem minor_sum_cons (Q g Dmain : ℝ) (ml : MinorLoss) (rest : List MinorLoss) :
    minor_sum Q g Dmain (ml :: rest) =
      ml.K * (V_of Q (ml.diameter_m.getD Dmain)) ^ 2 / (2.0 * g) +
        minor_sum Q g Dmain rest := by
  simp [minor_sum]

theorem minor_sum_append (Q g Dmain : ℝ) (l1 l2 : List MinorLoss) :
    minor_sum Q g Dmain (l1 ++ l2) = minor_sum Q g Dmain l1 + minor_sum Q g Dmain l2 := by
  simp [minor_sum]

theorem minor_loop_ok (Q Dmain g : ℝ) (els : List MinorLoss) :
    ∀ acc : ℝ, (∀ ml ∈ els, ml.diameter_m.getD Dmain ≠ 0) →
      minor_loop Q Dmain g els acc = .ok (acc + minor_sum Q g Dmain els) := by
  induction els with
  | nil => intro acc _; simp [minor_loop, minor_sum_nil]
  | cons ml rest ih =>
    intro acc h
    have hd : ml.diameter_m.getD Dmain ≠ 0 := h ml (List.mem_cons_self ml rest)
    have ht : ∀ m ∈ rest, m.diameter_m.getD Dmain ≠ 0 :=
      fun m hm => h m (List.mem_cons_of_mem _ hm)
    simp only [minor_loop, compute_velocity_eq Q _ hd]
    rw [ih _ ht, minor_sum_cons]
    congr 1
    ring

theorem minor_loop_err (Q Dmain g : ℝ) (els : List MinorLoss) :
    ∀ acc : ℝ, (∃ ml ∈ els, ml.diameter_m.getD Dmain = 0) →
      minor_loop Q Dmain g els acc = .error .zeroDivisionError := by
  induction els with
  | nil => intro acc h; simp at h
  | cons ml rest ih =>
    intro acc h
    by_cases hd : ml.diameter_m.getD Dmain = 0
    · simp only [minor_loop, hd, compute_velocity_zero_diam]
    · have : ∃ m ∈ rest, m.diameter_m.getD Dmain = 0 := by
        rcases h with ⟨m, hm, hm0⟩
        rcases List.mem_cons.mp hm with rfl | hmr
        · exact absurd hm0 hd
        · exact ⟨m, hmr, hm0⟩
      simp only [minor_loop, compute_velocity_eq Q _ hd]
      exact ih _ this

theorem hfml_ok (p : SystemParams) (V : ℝ) (h : ml_ok p.D_main_m p.minor_losses) :
    head_from_minor_losses p V =
      .ok (minor_sum p.Q_m3_s p.g_m_s2 p.D_main_m p.minor_losses) := by
  rw [head_from_minor_losses, minor_loop_ok _ _ _ _ _ h]
  norm_num

theorem hfml_err (p : SystemParams) (V : ℝ)
    (h : ∃ ml ∈ p.minor_losses, ml.diameter_m.getD p.D_main_m = 0) :
    head_from_minor_losses p V = .error .zeroDivisionError := by
  rw [head_from_minor_losses, minor_loop_err _ _ _ _ _ h]

/-! ### The major-loss computation -/

theorem hfmaj_ok (p : SystemParams) (V : ℝ)
    (h : 0 < p.rho_kg_m3 * V * p.D_main_m / p.mu_Pa_s) :
    head_from_major_losses p V =
      .ok (friction_value (p.rho_kg_m3 * V * p.D_main_m / p.mu_Pa_s) (p.eps_m / p.D_main_m) *
        (p.L_main_m / p.D_main_m) * V ^ 2 / (2.0 * p.g_m_s2)) := by
  simp only [head_from_major_losses, compute_reynolds, friction_factor_haaland_ok _ h]

theorem hfmaj_err (p : SystemParams) (V : ℝ)
    (h : p.rho_kg_m3 * V * p.D_main_m / p.mu_Pa_s ≤ 0) :
    head_from_major_losses p V = .error .valueError := by
  simp only [head_from_major_losses, compute_reynolds, friction_factor_haaland_err _ h]

/-! ### Characterization of the whole pipeline -/

theorem ml_ok_eff {p : SystemParams} (hD : p.D_main_m ≠ 0)
    (h : ml_ok p.D_main_m p.minor_losses) : ml_ok p.D_main_m (eff_losses p) := by
  intro ml hm
  rw [eff_losses] at hm
  cases hb : p.point2_is_reservoir_free_surface with
  | false => rw [hb] at hm; simp only [Bool.false_eq_true, if_neg] at hm; exact h ml (by simpa using hm)
  | true =>
    rw [hb] at hm; simp only [if_pos] at hm
    rcases List.mem_append.mp hm with hm1 | hm2
    · exact h ml hm1
    · have : ml = exit_loss p := by simpa using hm2
      subst this
      simpa [exit_loss] using hD

theorem minor_branch_ok (p : SystemParams) (V : ℝ)
    (hml : ml_ok p.D_main_m (eff_losses p)) :
    (if p.point2_is_reservoir_free_surface then
        head_from_minor_losses (temp_params p) V
      else head_from_minor_losses p V) =
      .ok (minor_sum p.Q_m3_s p.g_m_s2 p.D_main_m (eff_losses p)) := by
  cases hb : p.point2_is_reservoir_free_surface with
  | false =>
    rw [eff_losses, hb] at hml ⊢
    simp only [Bool.false_eq_true, if_neg, if_false] at hml ⊢
    exact hfml_ok p V hml
  | true =>
    rw [eff_losses, hb] at hml ⊢
    simp only [if_true] at hml ⊢
    exact hfml_ok (temp_params p) V hml

theorem minor_branch_err (p : SystemParams) (V : ℝ)
    (hml : ¬ ml_ok p.D_main_m (eff_losses p)) :
    (if p.point2_is_reservoir_free_surface then
        head_from_minor_losses (temp_params p) V
      else head_from_minor_losses p V) = .error .zeroDivisionError := by
  have hex : ∃ ml ∈ eff_losses p, ml.diameter_m.getD p.D_main_m = 0 := by
    rw [ml_ok] at hml
    push_neg at hml
    rcases hml with ⟨ml, hm, h0⟩
    exact ⟨ml, hm, h0⟩
  cases hb : p.point2_is_reservoir_free_surface with
  | false =>
    rw [eff_losses, hb] at hex
    simp only [Bool.false_eq_true, if_neg, if_false] at hex ⊢
    exact hfml_err p V hex
  | true =>
    rw [eff_losses, hb] at hex
    simp only [if_true] at hex ⊢
    exact hfml_err (temp_params p) V hex

theorem compute_ok_of (p : SystemParams) (hD : p.D_main_m ≠ 0)
    (hml : ml_ok p.D_main_m (eff_losses p)) (hRe : 0 < Re_of p)
    (heta : 0 < p.pump_efficiency ∧ p.pump_efficiency ≤ 1.0) :
    compute_pump_head_and_hp p = .ok (math_result p) := by
  have hRe' : 0 < p.rho_kg_m3 * V_of p.Q_m3_s p.D_main_m * p.D_main_m / p.mu_Pa_s := hRe
  simp only [compute_pump_head_and_hp, compute_velocity_eq p.Q_m3_s p.D_main_m hD,
    minor_branch_ok p _ hml, hfmaj_ok p _ hRe', if_pos heta]
  simp only [math_result, h_major_val, h_minor_val, pump_head_val, hyd_power_val,
    kinetic_term, Re_of]

theorem compute_err_of_D0 (p : SystemParams) (hD : p.D_main_m = 0) :
    compute_pump_head_and_hp p = .error .zeroDivisionError := by
  simp only [compute_pump_head_and_hp, hD, compute_velocity_zero_diam]

theorem compute_err_of_minor (p : SystemParams) (hD : p.D_main_m ≠ 0)
    (hml : ¬ ml_ok p.D_main_m (eff_losses p)) :
    compute_pump_head_and_hp p = .error .zeroDivisionError := by
  simp only [compute_pump_head_and_hp, compute_velocity_eq p.Q_m3_s p.D_main_m hD,
    minor_branch_err p _ hml]

theorem compute_err_of_Re (p : SystemParams) (hD : p.D_main_m ≠ 0)
    (hml : ml_ok p.D_main_m (eff_losses p)) (hRe : ¬ 0 < Re_of p) :
    compute_pump_head_and_hp p = .error .valueError := by
  have hRe' : p.rho_kg_m3 * V_of p.Q_m3_s p.D_main_m * p.D_main_m / p.mu_Pa_s ≤ 0 :=
    not_lt.mp hRe
  simp only [compute_pump_head_and_hp, compute_velocity_eq p.Q_m3_s p.D_main_m hD,
    minor_branch_ok p _ hml, hfmaj_err p _ hRe']

theorem compute_err_of_eta (p : SystemParams) (hD : p.D_main_m ≠ 0)
    (hml : ml_ok p.D_main_m (eff_losses p)) (hRe : 0 < Re_of p)
    (heta : ¬ (0 < p.pump_efficiency ∧ p.pump_efficiency ≤ 1.0)) :
    compute_pump_head_and_hp p = .error .valueError := by
  have hRe' : 0 < p.rho_kg_m3 * V_of p.Q_m3_s p.D_main_m * p.D_main_m / p.mu_Pa_s := hRe
  simp only [compute_pump_head_and_hp, compute_velocity_eq p.Q_m3_s p.D_main_m hD,
    minor_branch_ok p _ hml, hfmaj_ok p _ hRe', if_neg heta]

theorem compute_ok_iff (p : SystemParams) (r : PumpResult) :
    compute_pump_head_and_hp p = .ok r ↔
      p.D_main_m ≠ 0 ∧ ml_ok p.D_main_m (eff_losses p) ∧ 0 < Re_of p ∧
        (0 < p.pump_efficiency ∧ p.pump_efficiency ≤ 1.0) ∧ r = math_result p := by
  constructor
  · intro h
    rcases eq_or_ne p.D_main_m 0 with hD | hD
    · rw [compute_err_of_D0 p hD] at h; exact absurd h (by simp)
    by_cases hml : ml_ok p.D_main_m (eff_losses p)
    · by_cases hRe : 0 < Re_of p
      · by_cases heta : 0 < p.pump_efficiency ∧ p.pump_efficiency ≤ 1.0
        · rw [compute_ok_of p hD hml hRe heta] at h
          exact ⟨hD, hml, hRe, heta, ((Except.ok.injEq _ _).mp h).symm⟩
        · rw [compute_err_of_eta p hD hml hRe heta] at h; exact absurd h (by simp)
      · rw [compute_err_of_Re p hD hml hRe] at h; exact absurd h (by simp)
    · rw [compute_err_of_minor p hD hml] at h; exact absurd h (by simp)
  · rintro ⟨hD, hml, hRe, heta, rfl⟩
    exact compute_ok_of p hD hml hRe heta

theorem except_error_exists {ε α : Type} (x : Except ε α) :
    (∃ e, x = .error e) ↔ ¬ ∃ a, x = .ok a := by
  cases x <;> simp

/-! ### Claim theorems -/

/-- C2: `friction_factor_haaland` fails (the spec's DomainError, a Python
`ValueError`) exactly when `Re ≤ 0`; for `0 < Re < 2300` it returns exactly
`64/Re` — in particular `0.064` at `Re = 1000` for any roughness — and for
`Re ≥ 2300` it returns the Haaland value. -/
theorem friction_factor_haaland_spec :
    (∀ Re rr : ℝ, (∃ e, friction_factor_haaland Re rr = .error e) ↔ Re ≤ 0) ∧
    (∀ Re rr : ℝ, 0 < Re → Re < 2300 →
      friction_factor_haaland Re rr = .ok (64.0 / Re)) ∧
    (∀ rr : ℝ, friction_factor_haaland 1000 rr = .ok 0.064) ∧
    (∀ Re rr : ℝ, 2300 ≤ Re → friction_factor_haaland Re rr =
      .ok (1.0 / ((-1.8 * Real.logb 10 ((rr / 3.7) ^ (1.11 : ℝ) + 6.9 / Re)) ^ 2))) := by
  refine ⟨?_, ?_, ?_, ?_⟩
  · intro Re rr
    constructor
    · rintro ⟨e, he⟩
      by_contra hpos
      rw [friction_factor_haaland_ok rr (not_le.mp hpos)] at he
      exact absurd he (by simp)
    · intro h
      exact ⟨.valueError, friction_factor_haaland_err rr h⟩
  · intro Re rr h0 h2300
    rw [friction_factor_haaland, if_neg (not_le.mpr h0), if_pos h2300]
  · intro rr
    rw [friction_factor_haaland, if_neg (by norm_num), if_pos (by norm_num)]
    norm_num
  · intro Re rr h
    rw [friction_factor_haaland, if_neg (by simp only [not_le]; linarith),
      if_neg (not_lt.mpr h)]

/-- Witness for C2 at concrete inputs: a laminar call, a turbulent call and
a failing call. -/
theorem friction_factor_haaland_spec_inst :
    friction_factor_haaland 100 0.001 = .ok (64.0 / 100) ∧
    friction_factor_haaland 4000 0.001 =
      .ok (1.0 / ((-1.8 * Real.logb 10 (((0.001 : ℝ) / 3.7) ^ (1.11 : ℝ) + 6.9 / 4000)) ^ 2)) ∧
    (∃ e, friction_factor_haaland (-5) 0.001 = .error e) :=
  ⟨friction_factor_haaland_spec.2.1 100 0.001 (by norm_num) (by norm_num),
   friction_factor_haaland_spec.2.2.2 4000 0.001 (by norm_num),
   (friction_factor_haaland_spec.1 (-5) 0.001).mpr (by norm_num)⟩

/-- C3 counterexample: at diameter `-1 ≤ 0` the code does NOT fail — it
returns a velocity normally, refuting "fails with a DomainError for every
D ≤ 0". -/
theorem compute_velocity_neg_diameter_ok :
    (∃ v, compute_velocity 1 (-1) = .ok v) ∧ ((-1 : ℝ) ≤ 0) :=
  ⟨⟨V_of 1 (-1), compute_velocity_eq 1 (-1) (by norm_num)⟩, by norm_num⟩

/-- C3 (amended): `compute_velocity` returns `Q / (pi*D^2/4)` for every
nonzero `D` (positive or negative) and fails with a `ZeroDivisionError`
exactly at `D = 0`. -/
theorem compute_velocity_spec :
    (∀ Q D : ℝ, D ≠ 0 → compute_velocity Q D = .ok (Q / (Real.pi * D ^ 2 / 4.0))) ∧
    (∀ Q : ℝ, compute_velocity Q 0 = .error .zeroDivisionError) :=
  ⟨fun Q D h => compute_velocity_eq Q D h, fun Q => compute_velocity_zero_diam Q⟩

/-- Witness for C3 at `Q = 1, D = 2` and at `D = 0`. -/
theorem compute_velocity_spec_inst :
    compute_velocity 1 2 = .ok ((1 : ℝ) / (Real.pi * 2 ^ 2 / 4.0)) ∧
    compute_velocity 1 0 = .error .zeroDivisionError :=
  ⟨compute_velocity_spec.1 1 2 (by norm_num), compute_velocity_spec.2 1⟩

/-- C8: the minor-loss computation is invariant under any permutation of the
minor-loss inventory (all other fields equal), including on the error path. -/
theorem head_from_minor_losses_perm_invariant (p : SystemParams) (l2 : List MinorLoss)
    (V : ℝ) (hperm : p.minor_losses.Perm l2) :
    head_from_minor_losses p V =
      head_from_minor_losses { p with minor_losses := l2 } V := by
  by_cases h : ml_ok p.D_main_m p.minor_losses
  · have h2 : ml_ok p.D_main_m l2 := fun m hm => h m (hperm.mem_iff.mpr hm)
    rw [hfml_ok p V h, hfml_ok { p with minor_losses := l2 } V h2]
    congr 1
    exact (hperm.map _).sum_eq
  · have hex : ∃ ml ∈ p.minor_losses, ml.diameter_m.getD p.D_main_m = 0 := by
      rw [ml_ok] at h; push_neg at h; exact h
    have hex2 : ∃ ml ∈ l2, ml.diameter_m.getD p.D_main_m = 0 := by
      rcases hex with ⟨ml, hm, h0⟩
      exact ⟨ml, hperm.mem_iff.mp hm, h0⟩
    rw [hfml_err p V hex, hfml_err { p with minor_losses := l2 } V hex2]

/-- Witness for C8: swapping the two sample elements leaves the result
unchanged. -/
theorem head_from_minor_losses_perm_invariant_inst :
    head_from_minor_losses permParams 1 =
      head_from_minor_losses { permParams with minor_losses := [mlB, mlA] } 1 :=
  head_from_minor_losses_perm_invariant permParams [mlB, mlA] 1 (List.Perm.swap mlB mlA [])

/-- C10: `head_from_minor_losses` never reads its `V_main` argument — each
element's effective velocity is recomputed from `Q` and the element's (or
main) diameter — so its result is the same for any two values. -/
theorem head_from_minor_losses_ignores_V_main :
    ∀ (p : SystemParams) (v1 v2 : ℝ),
      head_from_minor_losses p v1 = head_from_minor_losses p v2 :=
  fun _ _ _ => rfl

/-- C1 counterexample: this configuration satisfies every hypothesis listed
by the claim (`D_main > 0`, `Q > 0`, `mu > 0`, efficiency in `(0,1]`), yet
the code raises instead of returning a record, because its (unconstrained)
density is negative, so the friction factor's Reynolds check fails. -/
theorem compute_pump_head_and_hp_no_record_neg_rho :
    (0 < negRhoParams.D_main_m ∧ 0 < negRhoParams.Q_m3_s ∧ 0 < negRhoParams.mu_Pa_s ∧
      0 < negRhoParams.pump_efficiency ∧ negRhoParams.pump_efficiency ≤ 1.0) ∧
    ∀ r, compute_pump_head_and_hp negRhoParams ≠ .ok r := by
  constructor
  · refine ⟨?_, ?_, ?_, ?_, ?_⟩ <;> norm_num [negRhoParams, inch_diameter_to_m, IN_TO_M]
  · intro r h
    have hD : negRhoParams.D_main_m ≠ 0 := by
      norm_num [negRhoParams, inch_diameter_to_m, IN_TO_M]
    have hml : ml_ok negRhoParams.D_main_m (eff_losses negRhoParams) :=
      ml_ok_eff hD (by simp [negRhoParams, ml_ok])
    have hRe : ¬ 0 < Re_of negRhoParams := by
      refine not_lt.mpr (le_of_lt (Re_of_neg ?_ ?_ ?_ ?_)) <;>
        norm_num [negRhoParams, inch_diameter_to_m, IN_TO_M]
    rw [compute_err_of_Re negRhoParams hD hml hRe] at h
    exact Except.noConfusion h

/-- C1 (amended): with the two extra hypotheses the claim's quantification
misses — positive density and no zero minor-loss diameter override — the
computation succeeds and the returned record satisfies all the claimed
field equations: `pump_head = (z2-z1) + kineticTerm + (h_major+h_minor)`
with the kinetic term zero exactly on the free-surface branch,
`hydraulic = rho*g*Q*pump_head`, `shaft = hydraulic/eta`,
`shaft_hp = shaft/745.699872`, and `h_major = f*(L/D)*V^2/(2g)` where `f`
is the friction factor of the Reynolds number and relative roughness. -/
theorem compute_pump_head_and_hp_ok_fields (p : SystemParams)
    (hD : 0 < p.D_main_m) (hQ : 0 < p.Q_m3_s) (hmu : 0 < p.mu_Pa_s)
    (hrho : 0 < p.rho_kg_m3)
    (heta : 0 < p.pump_efficiency ∧ p.pump_efficiency ≤ 1.0)
    (hml : ∀ ml ∈ p.minor_losses, ml.diameter_m.getD p.D_main_m ≠ 0) :
    ∃ r, compute_pump_head_and_hp p = .ok r ∧
      r.pump_head_m = (p.z2_m - p.z1_m) +
        (if p.point2_is_reservoir_free_surface then 0
         else r.V_main_m_s ^ 2 / (2.0 * p.g_m_s2)) +
        (r.h_major_m + r.h_minor_m) ∧
      r.hydraulic_power_W = p.rho_kg_m3 * p.g_m_s2 * p.Q_m3_s * r.pump_head_m ∧
      r.shaft_power_W = r.hydraulic_power_W / p.pump_efficiency ∧
      r.shaft_power_hp = r.shaft_power_W / 745.699872 ∧
      ∃ f, friction_factor_haaland
          (compute_reynolds p.rho_kg_m3 r.V_main_m_s p.D_main_m p.mu_Pa_s)
          (p.eps_m / p.D_main_m) = .ok f ∧
        r.h_major_m = f * (p.L_main_m / p.D_main_m) * r.V_main_m_s ^ 2 /
          (2.0 * p.g_m_s2) := by
  have hD' := ne_of_gt hD
  have hml' := ml_ok_eff hD' hml
  have hRe := Re_of_pos hQ hD hmu hrho
  refine ⟨math_result p, compute_ok_of p hD' hml' hRe heta, ?_, rfl, rfl, ?_, ?_⟩
  · simp only [math_result, pump_head_val, kinetic_term]
    cases hb : p.point2_is_reservoir_free_surface <;> simp [hb] <;> ring
  · show hyd_power_val p / p.pump_efficiency * HP_PER_WATT =
      hyd_power_val p / p.pump_efficiency / 745.699872
    rw [HP_PER_WATT]
    ring
  · exact ⟨friction_value (Re_of p) (p.eps_m / p.D_main_m),
      friction_factor_haaland_ok _ hRe, rfl⟩

/-- Witness for C1 at the source's default configuration. -/
theorem compute_pump_head_and_hp_ok_fields_inst :
    ∃ r, compute_pump_head_and_hp defaultParams = .ok r ∧
      r.pump_head_m = (defaultParams.z2_m - defaultParams.z1_m) +
        (if defaultParams.point2_is_reservoir_free_surface then 0
         else r.V_main_m_s ^ 2 / (2.0 * defaultParams.g_m_s2)) +
        (r.h_major_m + r.h_minor_m) ∧
      r.hydraulic_power_W = defaultParams.rho_kg_m3 * defaultParams.g_m_s2 *
        defaultParams.Q_m3_s * r.pump_head_m ∧
      r.shaft_power_W = r.hydraulic_power_W / defaultParams.pump_efficiency ∧
      r.shaft_power_hp = r.shaft_power_W / 745.699872 ∧
      ∃ f, friction_factor_haaland
          (compute_reynolds defaultParams.rho_kg_m3 r.V_main_m_s
            defaultParams.D_main_m defaultParams.mu_Pa_s)
          (defaultParams.eps_m / defaultParams.D_main_m) = .ok f ∧
        r.h_major_m = f * (defaultParams.L_main_m / defaultParams.D_main_m) *
          r.V_main_m_s ^ 2 / (2.0 * defaultParams.g_m_s2) :=
  compute_pump_head_and_hp_ok_fields defaultParams
    (by norm_num [defaultParams, inch_diameter_to_m, IN_TO_M])
    (by norm_num [defaultParams]) (by norm_num [defaultParams])
    (by norm_num [defaultParams]) (by norm_num [defaultParams])
    (by simp [defaultParams])

/-- C4: on every successful run the record's minor-loss head equals the
spec's sum — over every element of the inventory, extended by exactly the
one implicit exit element (`K = 1`, diameter = main diameter) precisely when
the free-surface flag is set — of `K * V_eff^2/(2g)` with `V_eff` recomputed
from `Q` and the element's diameter override (falling back to the main
diameter). -/
theorem h_minor_eq_spec_sum (p : SystemParams) (r : PumpResult)
    (h : compute_pump_head_and_hp p = .ok r) :
    r.h_minor_m = minor_sum p.Q_m3_s p.g_m_s2 p.D_main_m
      (p.minor_losses ++
        (if p.point2_is_reservoir_free_surface then [exit_loss p] else [])) := by
  obtain ⟨-, -, -, -, rfl⟩ := (compute_ok_iff p r).mp h
  show h_minor_val p = _
  rw [h_minor_val, eff_losses]
  cases hb : p.point2_is_reservoir_free_surface <;> simp [hb]

/-- Witness for C4 on a free-surface configuration with one ordinary
element. -/
theorem h_minor_eq_spec_sum_inst :
    ∃ r, compute_pump_head_and_hp teeParams = .ok r ∧
      r.h_minor_m = minor_sum teeParams.Q_m3_s teeParams.g_m_s2 teeParams.D_main_m
        (teeParams.minor_losses ++
          (if teeParams.point2_is_reservoir_free_surface then [exit_loss teeParams]
           else [])) := by
  have hD : teeParams.D_main_m ≠ 0 := by
    norm_num [teeParams, inch_diameter_to_m, IN_TO_M]
  have hml : ml_ok teeParams.D_main_m (eff_losses teeParams) := by
    refine ml_ok_eff hD ?_
    intro ml hm
    have : ml = { name := "Tee branch", K := 1.0, diameter_m := none } := by
      simpa [teeParams] using hm
    subst this
    simpa using hD
  have hok := compute_ok_of teeParams hD hml
    (Re_of_pos (by norm_num [teeParams])
      (by norm_num [teeParams, inch_diameter_to_m, IN_TO_M])
      (by norm_num [teeParams]) (by norm_num [teeParams]))
    (by norm_num [teeParams])
  exact ⟨math_result teeParams, hok, h_minor_eq_spec_sum teeParams _ hok⟩

/-- C5 counterexample: every input the claim lists as valid is valid and the
efficiency lies in `(0,1]`, yet the code fails — the negative (unconstrained)
density makes the Reynolds check raise — refuting "fails iff
pump_efficiency is not in (0,1]". -/
theorem pump_error_with_good_efficiency :
    (0 < negRhoParams1.D_main_m ∧ 0 < negRhoParams1.Q_m3_s ∧
      0 < negRhoParams1.mu_Pa_s ∧ 0 < negRhoParams1.pump_efficiency ∧
      negRhoParams1.pump_efficiency ≤ 1.0) ∧
    ∃ e, compute_pump_head_and_hp negRhoParams1 = .error e := by
  constructor
  · refine ⟨?_, ?_, ?_, ?_, ?_⟩ <;> norm_num [negRhoParams1, inch_diameter_to_m, IN_TO_M]
  · have hD : negRhoParams1.D_main_m ≠ 0 := by
      norm_num [negRhoParams1, inch_diameter_to_m, IN_TO_M]
    have hml : ml_ok negRhoParams1.D_main_m (eff_losses negRhoParams1) :=
      ml_ok_eff hD (by simp [negRhoParams1, ml_ok])
    have hRe : ¬ 0 < Re_of negRhoParams1 := by
      refine not_lt.mpr (le_of_lt (Re_of_neg ?_ ?_ ?_ ?_)) <;>
        norm_num [negRhoParams1, inch_diameter_to_m, IN_TO_M]
    exact ⟨.valueError, compute_err_of_Re negRhoParams1 hD hml hRe⟩

/-- C5 (amended): for configurations with `D_main > 0`, `Q > 0`, `mu > 0`,
and additionally `rho > 0` and no zero minor-loss diameter override — the
conditions the claim's "other inputs are valid" list misses —
`compute_pump_head_and_hp` fails if and only if the pump efficiency is not
in `(0, 1]`; no partial result is returned on failure (the result is an
error, not a record).  In particular it fails for efficiency `0` and `1.5`. -/
theorem pump_error_iff_bad_efficiency (p : SystemParams)
    (hD : 0 < p.D_main_m) (hQ : 0 < p.Q_m3_s) (hmu : 0 < p.mu_Pa_s)
    (hrho : 0 < p.rho_kg_m3)
    (hml : ∀ ml ∈ p.minor_losses, ml.diameter_m.getD p.D_main_m ≠ 0) :
    (∃ e, compute_pump_head_and_hp p = .error e) ↔
      ¬ (0 < p.pump_efficiency ∧ p.pump_efficiency ≤ 1.0) := by
  rw [except_error_exists]
  have hD' := ne_of_gt hD
  have hml' := ml_ok_eff hD' hml
  have hRe := Re_of_pos hQ hD hmu hrho
  constructor
  · intro h hc
    exact h ⟨math_result p, compute_ok_of p hD' hml' hRe hc⟩
  · rintro hc ⟨r, hr⟩
    exact hc ((compute_ok_iff p r).mp hr).2.2.2.1

/-- Witness for C5: at efficiency `1.5` (out of range, all else default
and valid) the computation fails. -/
theorem pump_error_iff_bad_efficiency_inst :
    ∃ e, compute_pump_head_and_hp badEtaParams = .error e :=
  (pump_error_iff_bad_efficiency badEtaParams
    (by norm_num [badEtaParams, inch_diameter_to_m, IN_TO_M])
    (by norm_num [badEtaParams]) (by norm_num [badEtaParams])
    (by norm_num [badEtaParams]) (by simp [badEtaParams])).mpr
    (by norm_num [badEtaParams])

/-- Turning the free-surface flag on adds exactly the implicit `K = 1`
exit term `V_main^2/(2g)` to the minor-loss sum. -/
theorem h_minor_val_flag (p : SystemParams)
    (hb : p.point2_is_reservoir_free_surface = false) :
    h_minor_val { p with point2_is_reservoir_free_surface := true } =
      h_minor_val p + 1.0 * (V_of p.Q_m3_s p.D_main_m) ^ 2 / (2.0 * p.g_m_s2) := by
  rw [h_minor_val, h_minor_val, eff_losses, eff_losses]
  simp only [hb, Bool.false_eq_true, if_false, if_true]
  rw [minor_sum_append, minor_sum_cons, minor_sum_nil]
  simp [exit_loss]

/-- C6 counterexample: with a negative gravity field (which the claim does
not exclude) the implicit exit term is negative, so turning the flag on
does NOT strictly increase the returned minor-loss head. -/
theorem free_surface_decreases_minor_loss_neg_g :
    ∃ r1 r2, compute_pump_head_and_hp negGParams = .ok r1 ∧
      compute_pump_head_and_hp
        { negGParams with point2_is_reservoir_free_surface := true } = .ok r2 ∧
      ¬ r1.h_minor_m < r2.h_minor_m := by
  have hD : negGParams.D_main_m ≠ 0 := by
    norm_num [negGParams, inch_diameter_to_m, IN_TO_M]
  have hRe : 0 < Re_of negGParams :=
    Re_of_pos (by norm_num [negGParams])
      (by norm_num [negGParams, inch_diameter_to_m, IN_TO_M])
      (by norm_num [negGParams]) (by norm_num [negGParams])
  have hok1 := compute_ok_of negGParams hD
    (ml_ok_eff hD (by simp [negGParams, ml_ok])) hRe (by norm_num [negGParams])
  have hok2 := compute_ok_of
    { negGParams with point2_is_reservoir_free_surface := true } hD
    (ml_ok_eff hD (by simp [negGParams, ml_ok])) hRe
    (by norm_num [negGParams])
  refine ⟨_, _, hok1, hok2, ?_⟩
  rw [not_lt]
  show h_minor_val { negGParams with point2_is_reservoir_free_surface := true } ≤
    h_minor_val negGParams
  rw [h_minor_val_flag negGParams rfl]
  have hterm : 1.0 * (V_of negGParams.Q_m3_s negGParams.D_main_m) ^ 2 /
      (2.0 * negGParams.g_m_s2) ≤ 0 := by
    refine div_nonpos_iff.mpr (Or.inl ⟨?_, ?_⟩)
    · positivity
    · norm_num [negGParams]
  linarith

/-- C6 (amended): with a positive gravity field (the only extra hypothesis
the counterexample forces), turning the free-surface flag on — all other
fields identical, `Q > 0`, `D_main > 0` — strictly increases the
minor-loss head returned by `compute_pump_head_and_hp`. -/
theorem free_surface_increases_minor_loss (p : SystemParams) (r1 r2 : PumpResult)
    (hb : p.point2_is_reservoir_free_surface = false)
    (hQ : 0 < p.Q_m3_s) (hD : 0 < p.D_main_m) (hg : 0 < p.g_m_s2)
    (h1 : compute_pump_head_and_hp p = .ok r1)
    (h2 : compute_pump_head_and_hp
      { p with point2_is_reservoir_free_surface := true } = .ok r2) :
    r1.h_minor_m < r2.h_minor_m := by
  obtain ⟨-, -, -, -, rfl⟩ := (compute_ok_iff p r1).mp h1
  obtain ⟨-, -, -, -, rfl⟩ := (compute_ok_iff _ r2).mp h2
  show h_minor_val p <
    h_minor_val { p with point2_is_reservoir_free_surface := true }
  rw [h_minor_val_flag p hb]
  have hV := V_of_pos hQ hD
  have hnum : 0 < 1.0 * (V_of p.Q_m3_s p.D_main_m) ^ 2 := by
    have := pow_pos hV 2
    nlinarith
  have hden : 0 < 2.0 * p.g_m_s2 := by nlinarith
  have := div_pos hnum hden
  linarith

/-- Witness for C6 at the default configuration (flag off) against the same
configuration with the flag on. -/
theorem free_surface_increases_minor_loss_inst :
    (math_result defaultParams).h_minor_m <
      (math_result
        { defaultParams with point2_is_reservoir_free_surface := true }).h_minor_m := by
  have hD : defaultParams.D_main_m ≠ 0 := by
    norm_num [defaultParams, inch_diameter_to_m, IN_TO_M]
  have hRe : 0 < Re_of defaultParams :=
    Re_of_pos (by norm_num [defaultParams])
      (by norm_num [defaultParams, inch_diameter_to_m, IN_TO_M])
      (by norm_num [defaultParams]) (by norm_num [defaultParams])
  have hok1 := compute_ok_of defaultParams hD
    (ml_ok_eff hD (by simp [defaultParams, ml_ok])) hRe (by norm_num [defaultParams])
  have hok2 := compute_ok_of
    { defaultParams with point2_is_reservoir_free_surface := true } hD
    (ml_ok_eff hD (by simp [defaultParams, ml_ok])) hRe
    (by norm_num [defaultParams])
  exact free_surface_increases_minor_loss defaultParams _ _ rfl
    (by norm_num [defaultParams])
    (by norm_num [defaultParams, inch_diameter_to_m, IN_TO_M])
    (by norm_num [defaultParams]) hok1 hok2

/-- C7: on every successful run with pump efficiency exactly 1, the shaft
power field equals the hydraulic power field exactly. -/
theorem shaft_eq_hydraulic_at_unit_efficiency (p : SystemParams) (r : PumpResult)
    (h : compute_pump_head_and_hp p = .ok r) (heta : p.pump_efficiency = 1.0) :
    r.shaft_power_W = r.hydraulic_power_W := by
  obtain ⟨-, -, -, -, rfl⟩ := (compute_ok_iff p r).mp h
  show hyd_power_val p / p.pump_efficiency = hyd_power_val p
  rw [heta]
  norm_num

/-- Witness for C7 at the default configuration with efficiency set to 1. -/
theorem shaft_eq_hydraulic_at_unit_efficiency_inst :
    ∃ r, compute_pump_head_and_hp unitEtaParams = .ok r ∧
      r.shaft_power_W = r.hydraulic_power_W := by
  have hD : unitEtaParams.D_main_m ≠ 0 := by
    norm_num [unitEtaParams, inch_diameter_to_m, IN_TO_M]
  have hok := compute_ok_of unitEtaParams hD
    (ml_ok_eff hD (by simp [unitEtaParams, ml_ok]))
    (Re_of_pos (by norm_num [unitEtaParams])
      (by norm_num [unitEtaParams, inch_diameter_to_m, IN_TO_M])
      (by norm_num [unitEtaParams]) (by norm_num [unitEtaParams]))
    (by norm_num [unitEtaParams])
  exact ⟨_, hok, shaft_eq_hydraulic_at_unit_efficiency unitEtaParams _ hok
    (by norm_num [unitEtaParams])⟩
